import Mathlib

/- Verification of the repository history fixture and mock query adapter
   implemented in tools/bumper/git_fakes.go.  Pure functions of the source
   are translated directly; the external process (git) and the external
   JSON decoder (encoding/json) appear as explicit inputs/parameters. -/

namespace GitFakes

/-- Boolean prefix test on character lists, the building block of the
embedding of Go strings.Contains. -/
def listIsPrefixOfChar : List Char → List Char → Bool
  | [], _ => true
  | _ :: _, [] => false
  | a :: as, b :: bs => a == b && listIsPrefixOfChar as bs

/-- Boolean substring test on character lists: does some suffix of the
second argument start with the first argument? -/
def listContainsSub (sub : List Char) : List Char → Bool
  | [] => listIsPrefixOfChar sub []
  | c :: rest => listIsPrefixOfChar sub (c :: rest) || listContainsSub sub rest

/-- Embedding of Go strings.Contains (s, sub): true iff sub occurs in s as a
contiguous substring; always true for the empty sub. -/
def goContains (s sub : String) : Bool :=
  listContainsSub sub.data s.data

/-- Helper for replaceFirst: replace the first occurrence of a nonempty
pattern in a character list. -/
def replaceFirstAux (old new : List Char) : List Char → List Char
  | [] => []
  | c :: rest =>
    if listIsPrefixOfChar old (c :: rest) then
      new ++ (c :: rest).drop old.length
    else
      c :: replaceFirstAux old new rest

/-- Embedding of Go strings.Replace (s, old, new, 1): replace the first
occurrence of old in s by new (with the Go convention that an empty old
inserts new at the start). -/
def replaceFirst (s old new : String) : String :=
  if old.data.isEmpty then
    new ++ s
  else
    ⟨replaceFirstAux old.data new.data s.data⟩

/-- Parsed log entry (source: struct gitCommitMock).  Only the commit hash
and the decoration string carry json tags and are decoded. -/
structure gitCommitMock where
  commit : String
  refs : String
  deriving DecidableEq

/-- The shape of github.Reference the mock produces: a ref name and the
target object SHA (source: getNewMockReference builds Ref and Object.SHA). -/
structure GithubReference where
  ref : String
  sha : String
  deriving DecidableEq

/-- The shape of github.RepositoryCommit the mock produces: only the SHA
field is populated (source: convertLogToRepositoryCommitList). -/
structure GithubRepositoryCommit where
  sha : String
  deriving DecidableEq

/-- Error taxonomy of the adapter.  queryError models a wrapped failure of
the external git process, notFoundError the fmt.Errorf("reference %s not
found") path, panicEmptyOutput totalizes the out-of-range slice
logOut[:len(logOut)-1] taken on empty output, and wrap models
errors.Wrap. -/
inductive MockApiError where
  | queryError (msg : String)
  | notFoundError (refName : String)
  | panicEmptyOutput
  | wrap (msg : String) (cause : MockApiError)
  deriving DecidableEq

/-- Outcome of running the external git process: either its standard
output on success, or a failure message.  This is the explicit input that
replaces exec.Command in the shallow embedding. -/
inductive CmdOutcome where
  | success (out : String)
  | failure (msg : String)
  deriving DecidableEq

/-- The per-entry log template (source: var GITFORMAT). -/
def GITFORMAT : String :=
  "--pretty=format:\x7b\n  \"commit\": \"%H\",\n  \"parent\": \"%P\",\n  \"refs\": \"%D\",\n  \"subject\": \"%s\",\n  \"author\": \x7b \"name\": \"%aN\", \"email\": \"%aE\", \"date\": \"%ad\" \x7d,\n  \"commiter\": \x7b \"name\": \"%cN\", \"email\": \"%cE\", \"date\": \"%cd\" \x7d\n \x7d,"

/-- Embedding of gitCommand: on process failure the error is wrapped; on
success the last character of the output is removed unconditionally
(logOut[:len(logOut)-1]).  On empty successful output that slice is out of
bounds in Go, so the totalized embedding aborts with panicEmptyOutput
instead of returning a value. -/
def gitCommand (res : CmdOutcome) : Except MockApiError String :=
  match res with
  | .failure m => .error (.queryError ("failed to run git command: " ++ m))
  | .success out =>
    if out.isEmpty then .error .panicEmptyOutput
    else .ok (out.dropRight 1)

/-- Argument list built by gitLogJson for the log query: scoped to the
first-parent ancestry of branchName when nonempty, all branches
otherwise. -/
def gitLogArgs (repo branchName : String) : List String :=
  let args := ["-C", repo, "log", "--date=iso-strict", "--first-parent",
    "--decorate=full", GITFORMAT]
  if branchName ≠ "" then args ++ [branchName] else args ++ ["--all"]

/-- Embedding of gitLogJson.  unmarshal stands for encoding/json
Unmarshal into a slice of gitCommitMock (none means a decode error).  The
source DISCARDS the Unmarshal error (its return value is not checked), so
a failed decode leaves the slice nil and the function returns that empty
list together with the nil error of the successful command. -/
def gitLogJson (unmarshal : String → Option (List gitCommitMock))
    (res : CmdOutcome) : Except MockApiError (List gitCommitMock) :=
  match gitCommand res with
  | .error e => .error (.wrap "failed to run git log" e)
  | .ok logOut =>
    match unmarshal ("[" ++ logOut ++ "]") with
    | some l => .ok l
    | none => .ok []

/-- Argument list built by describeHash for the describe query. -/
def describeArgs (repoDir commitHash : String) : List String :=
  ["-C", repoDir, "describe", commitHash, "--tags", "--always"]

/-- Embedding of describeHash: runs the shared command runner and wraps
its failure. -/
def describeHash (res : CmdOutcome) : Except MockApiError String :=
  match gitCommand res with
  | .error e => .error (.wrap "failed to run git describe" e)
  | .ok logOut => .ok logOut

/-- Embedding of the decoration refactoring inside getNewMockReference:
strings.Replace with count 1 removes the first "tag: " and then the first
"HEAD -> " from the decoration string. -/
def stripRefPrefixes (s : String) : String :=
  replaceFirst (replaceFirst s "tag: " "") "HEAD -> " ""

/-- Embedding of getNewMockReference: one github.Reference per commit
record, with the stripped decoration string as ref name and the commit
hash as target SHA. -/
def getNewMockReference (commitObj : gitCommitMock) : GithubReference :=
  { ref := stripRefPrefixes commitObj.refs, sha := commitObj.commit }

/-- Embedding of convertLogToReferenceList: keep, in log order, every
record whose decoration contains refsFilter as a substring, converted by
getNewMockReference. -/
def convertLogToReferenceList :
    List gitCommitMock → String → List GithubReference
  | [], _ => []
  | c :: rest, refsFilter =>
    if goContains c.refs refsFilter then
      getNewMockReference c :: convertLogToReferenceList rest refsFilter
    else
      convertLogToReferenceList rest refsFilter

/-- Embedding of getRefFromCommitObjList: return the first record (in log
order) whose decoration contains refName as a substring, or the
not-found error. -/
def getRefFromCommitObjList :
    List gitCommitMock → String → Except MockApiError GithubReference
  | [], refName => .error (.notFoundError refName)
  | c :: rest, refName =>
    if goContains c.refs refName then .ok (getNewMockReference c)
    else getRefFromCommitObjList rest refName

/-- Embedding of convertLogToRepositoryCommitList: every record becomes a
RepositoryCommit carrying just the commit hash. -/
def convertLogToRepositoryCommitList :
    List gitCommitMock → List GithubRepositoryCommit
  | [] => []
  | c :: rest => { sha := c.commit } :: convertLogToRepositoryCommitList rest

/-- Embedding of mockGithubApi.ListMatchingRefs: log over all branches,
then filter/convert by opts.Ref. -/
def mockListMatchingRefs (unmarshal : String → Option (List gitCommitMock))
    (res : CmdOutcome) (refFilter : String) :
    Except MockApiError (List GithubReference) :=
  match gitLogJson unmarshal res with
  | .error e => .error (.wrap "failed performing mock git log" e)
  | .ok l => .ok (convertLogToReferenceList l refFilter)

/-- Embedding of mockGithubApi.ListCommits: log scoped by opts.SHA, then
convert every record to a commit summary. -/
def mockListCommits (unmarshal : String → Option (List gitCommitMock))
    (res : CmdOutcome) :
    Except MockApiError (List GithubRepositoryCommit) :=
  match gitLogJson unmarshal res with
  | .error e => .error (.wrap "failed performing mock git log" e)
  | .ok l => .ok (convertLogToRepositoryCommitList l)

/-- Embedding of mockGithubApi.GetRef: log over all branches, then return
the first record whose decoration contains ref. -/
def mockGetRef (unmarshal : String → Option (List gitCommitMock))
    (res : CmdOutcome) (ref : String) :
    Except MockApiError GithubReference :=
  match gitLogJson unmarshal res with
  | .error e => .error (.wrap "failed performing mock git log" e)
  | .ok l => getRefFromCommitObjList l ref

/- Fixture model.  initializeRepo builds, in order: commit h1 (file
static, branch master, untagged), commit h2 (tagged_annotated, annotated
tag v0.0.1), commit h3 (tagged_lightweight, lightweight tag v0.0.2),
commit h4 (latest_master, untagged, synthetic map label
dummy_tag_latest_master), branch release-v1.0.0 from master tip, commit
h5 (tagged_annotated_branch, annotated tag v1.0.0), commit h6
(tagged_lightweight_branch, lightweight tag v1.0.1), commit h7
(latest_branch, untagged, synthetic map label dummy_tag_latest_branch),
and finally the synthetic map entry dummy_false_commit with a random
40-hex value.  The hash values h1..h7 are nondeterministic outputs of the
commit operation, so they are parameters of the model. -/

/-- Modelled from the source construction sequence (initializeRepo) and
the semantics of git log --all --first-parent --decorate=full with the
GITFORMAT template: the parsed log is the seven commits newest first;
with full decoration, master shows as refs/heads/master, the side branch
as HEAD -> refs/heads/release-v1.0.0 (HEAD rests there after the last
checkout), and each tag as tag: refs/tags/NAME on its commit. -/
def fixtureLogAll (h1 h2 h3 h4 h5 h6 h7 : String) : List gitCommitMock :=
  [ { commit := h7, refs := "HEAD -> refs/heads/release-v1.0.0" },
    { commit := h6, refs := "tag: refs/tags/v1.0.1" },
    { commit := h5, refs := "tag: refs/tags/v1.0.0" },
    { commit := h4, refs := "refs/heads/master" },
    { commit := h3, refs := "tag: refs/tags/v0.0.2" },
    { commit := h2, refs := "tag: refs/tags/v0.0.1" },
    { commit := h1, refs := "" } ]

/-- Modelled from git log master --first-parent on the fixture: the four
commits made on master, newest first, with the same decorations as in the
all-branches log. -/
def fixtureLogMaster (h1 h2 h3 h4 : String) : List gitCommitMock :=
  [ { commit := h4, refs := "refs/heads/master" },
    { commit := h3, refs := "tag: refs/tags/v0.0.2" },
    { commit := h2, refs := "tag: refs/tags/v0.0.1" },
    { commit := h1, refs := "" } ]

/-- Modelled from git log release-v1.0.0 --first-parent on the fixture:
the three side-branch commits followed by the four shared master
ancestors (the branch was created from the master tip h4), newest first.
The first-parent ancestry of the side branch covers all seven commits, so
this coincides with the all-branches log. -/
def fixtureLogBranch (h1 h2 h3 h4 h5 h6 h7 : String) : List gitCommitMock :=
  fixtureLogAll h1 h2 h3 h4 h5 h6 h7

/-- The tagCommitMap built by initializeRepo, as an association list in
insertion order: the two annotated tags, the two lightweight tags, the
two synthetic latest labels, and the synthetic invalid entry whose value
r models the randstr.Hex(40) draw. -/
def tagCommitMap (h2 h3 h4 h5 h6 h7 r : String) : List (String × String) :=
  [ ("v0.0.1", h2),
    ("v0.0.2", h3),
    ("dummy_tag_latest_master", h4),
    ("v1.0.0", h5),
    ("v1.0.1", h6),
    ("dummy_tag_latest_branch", h7),
    ("dummy_false_commit", r) ]

/-- The hashes of the commits actually present in the fixture
repository. -/
def fixtureCommitHashes (h1 h2 h3 h4 h5 h6 h7 : String) : List String :=
  (fixtureLogAll h1 h2 h3 h4 h5 h6 h7).map gitCommitMock.commit

/-- Modelled from the randstr library contract: a 40-character string of
hexadecimal digits. -/
def isHex40 (s : String) : Bool :=
  s.length == 40 && s.data.all fun c =>
    c.isDigit || (Char.ofNat 97 ≤ c && c ≤ Char.ofNat 102)

/-- A 40-character hash stand-in made of one repeated digit, used to
instantiate the nondeterministic commit hashes on concrete inputs. -/
def cHash (d : Char) : String :=
  ⟨List.replicate 40 d⟩

/- Helper lemmas. -/

theorem goContains_empty (s : String) : goContains s "" = true := by
  show listContainsSub [] s.data = true
  cases s.data with
  | nil => rfl
  | cons c rest => rfl

theorem convertRefs_eq_filter_map (l : List gitCommitMock) (f : String) :
    convertLogToReferenceList l f =
      (l.filter fun c => goContains c.refs f).map getNewMockReference := by
  induction l with
  | nil => rfl
  | cons c rest ih =>
    simp only [convertLogToReferenceList, List.filter_cons]
    cases hc : goContains c.refs f with
    | true => simp [hc, ih]
    | false => simp [hc, ih]

theorem convertCommits_eq_map (l : List gitCommitMock) :
    convertLogToRepositoryCommitList l = l.map fun c => { sha := c.commit } := by
  induction l with
  | nil => rfl
  | cons c rest ih => simp [convertLogToRepositoryCommitList, ih]

/-- C1 (amended): on the fixture log, GetReference round-trips the map
entries for v0.0.1, v0.0.2 and v1.0.1 exactly; for v1.0.0 it returns the
side-branch tip h7 (whose full decoration contains v1.0.0 and is more
recent than the tagged commit h5 recorded in the map); and for the two
synthetic latest labels, which decorate no commit, it fails with the
not-found error. -/
theorem c1_roundtrip_partial (h1 h2 h3 h4 h5 h6 h7 r : String) :
    (tagCommitMap h2 h3 h4 h5 h6 h7 r).lookup "v0.0.1" = some h2 ∧
    getRefFromCommitObjList (fixtureLogAll h1 h2 h3 h4 h5 h6 h7) "v0.0.1" =
      .ok { ref := "refs/tags/v0.0.1", sha := h2 } ∧
    (tagCommitMap h2 h3 h4 h5 h6 h7 r).lookup "v0.0.2" = some h3 ∧
    getRefFromCommitObjList (fixtureLogAll h1 h2 h3 h4 h5 h6 h7) "v0.0.2" =
      .ok { ref := "refs/tags/v0.0.2", sha := h3 } ∧
    (tagCommitMap h2 h3 h4 h5 h6 h7 r).lookup "v1.0.1" = some h6 ∧
    getRefFromCommitObjList (fixtureLogAll h1 h2 h3 h4 h5 h6 h7) "v1.0.1" =
      .ok { ref := "refs/tags/v1.0.1", sha := h6 } ∧
    (tagCommitMap h2 h3 h4 h5 h6 h7 r).lookup "v1.0.0" = some h5 ∧
    getRefFromCommitObjList (fixtureLogAll h1 h2 h3 h4 h5 h6 h7) "v1.0.0" =
      .ok { ref := "refs/heads/release-v1.0.0", sha := h7 } ∧
    getRefFromCommitObjList (fixtureLogAll h1 h2 h3 h4 h5 h6 h7)
        "dummy_tag_latest_master" =
      .error (.notFoundError "dummy_tag_latest_master") ∧
    getRefFromCommitObjList (fixtureLogAll h1 h2 h3 h4 h5 h6 h7)
        "dummy_tag_latest_branch" =
      .error (.notFoundError "dummy_tag_latest_branch") :=
  ⟨rfl, rfl, rfl, rfl, rfl, rfl, rfl, rfl, rfl, rfl⟩

/-- C1 (counterexample): with concrete distinct hashes, the map entry
dummy_tag_latest_master exists but GetReference fails on it, and the map
entry v1.0.0 resolves to a different hash than the recorded one, so the
claimed round-trip over all non-dummy entries is false. -/
theorem c1_counterexample :
    (tagCommitMap (cHash '2') (cHash '3') (cHash '4') (cHash '5') (cHash '6')
        (cHash '7') "0123456789abcdef0123456789abcdef01234567").lookup
      "dummy_tag_latest_master" = some (cHash '4') ∧
    getRefFromCommitObjList
      (fixtureLogAll (cHash '1') (cHash '2') (cHash '3') (cHash '4') (cHash '5')
        (cHash '6') (cHash '7')) "dummy_tag_latest_master" =
      .error (.notFoundError "dummy_tag_latest_master") ∧
    (tagCommitMap (cHash '2') (cHash '3') (cHash '4') (cHash '5') (cHash '6')
        (cHash '7') "0123456789abcdef0123456789abcdef01234567").lookup
      "v1.0.0" = some (cHash '5') ∧
    getRefFromCommitObjList
      (fixtureLogAll (cHash '1') (cHash '2') (cHash '3') (cHash '4') (cHash '5')
        (cHash '6') (cHash '7')) "v1.0.0" =
      .ok { ref := "refs/heads/release-v1.0.0", sha := cHash '7' } ∧
    cHash '7' ≠ cHash '5' := by
  refine ⟨rfl, rfl, rfl, rfl, ?_⟩
  decide

/-- C2: when the external log command executes successfully but its
output is unparseable under the template (the decoder rejects it), the
operations do NOT surface a query error: the Unmarshal error is discarded
in the source, so the log parses to the empty list, the two listing
operations succeed with empty results, and GetRef reports a not-found
error instead of a query error. -/
theorem c2_unparseable_output_silently_empty :
    gitLogJson (fun _ => none) (.success "garbage,") = .ok [] ∧
    mockListMatchingRefs (fun _ => none) (.success "garbage,") "v" = .ok [] ∧
    mockListCommits (fun _ => none) (.success "garbage,") = .ok [] ∧
    mockGetRef (fun _ => none) (.success "garbage,") "v0.0.1" =
      .error (.notFoundError "v0.0.1") :=
  ⟨rfl, rfl, rfl, rfl⟩

/-- C3: whenever no parsed record has a decoration containing refName as
a substring, GetRef fails with the not-found error; in particular, on
the fixture log, dummy_false_commit (which decorates no commit) is not
found. -/
theorem c3_notfound_without_matching_decoration :
    (∀ (l : List gitCommitMock) (refName : String),
        (∀ c ∈ l, goContains c.refs refName = false) →
        getRefFromCommitObjList l refName = .error (.notFoundError refName)) ∧
    ∀ h1 h2 h3 h4 h5 h6 h7 : String,
      getRefFromCommitObjList (fixtureLogAll h1 h2 h3 h4 h5 h6 h7)
        "dummy_false_commit" = .error (.notFoundError "dummy_false_commit") := by
  constructor
  · intro l refName h
    induction l with
    | nil => rfl
    | cons c rest ih =>
      have hc := h c (List.mem_cons_self c rest)
      simp only [getRefFromCommitObjList, hc, Bool.false_eq_true, if_false]
      exact ih fun d hd => h d (List.mem_cons_of_mem c hd)
  · intro h1 h2 h3 h4 h5 h6 h7
    rfl

/-- C3 witness: concrete instance of the not-found behavior. -/
theorem c3_witness :
    (∀ c ∈ ([{ commit := "aaaa", refs := "refs/heads/master" }] :
        List gitCommitMock), goContains c.refs "zzz" = false) ∧
    getRefFromCommitObjList
      [{ commit := "aaaa", refs := "refs/heads/master" }] "zzz" =
      .error (.notFoundError "zzz") :=
  ⟨by decide, c3_notfound_without_matching_decoration.1
    [{ commit := "aaaa", refs := "refs/heads/master" }] "zzz" (by decide)⟩

/-- C4: whenever the log parses to record list l, ListMatchingRefs with
filter f returns exactly the records whose decoration contains f as a
substring, converted by getNewMockReference, in log order; and when no
record matches it returns the empty list without an error. -/
theorem c4_list_matching_refs_filter
    (unmarshal : String → Option (List gitCommitMock)) (res : CmdOutcome)
    (f : String) (l : List gitCommitMock)
    (h : gitLogJson unmarshal res = .ok l) :
    mockListMatchingRefs unmarshal res f =
      .ok ((l.filter fun c => goContains c.refs f).map getNewMockReference) ∧
    ((∀ c ∈ l, goContains c.refs f = false) →
      mockListMatchingRefs unmarshal res f = .ok []) := by
  have hm : mockListMatchingRefs unmarshal res f =
      .ok (convertLogToReferenceList l f) := by
    unfold mockListMatchingRefs
    rw [h]
  constructor
  · rw [hm, convertRefs_eq_filter_map]
  · intro hall
    rw [hm, convertRefs_eq_filter_map]
    have hnil : l.filter (fun c => goContains c.refs f) = [] := by
      rw [List.filter_eq_nil_iff]
      intro c hc
      simp [hall c hc]
    rw [hnil]
    rfl

/-- C4 witness: concrete instance with one matching record. -/
theorem c4_witness :
    gitLogJson (fun _ => some [{ commit := "aaaa", refs := "tag: refs/tags/v9.9.9" }])
        (.success "x,") =
      .ok [{ commit := "aaaa", refs := "tag: refs/tags/v9.9.9" }] ∧
    (mockListMatchingRefs
        (fun _ => some [{ commit := "aaaa", refs := "tag: refs/tags/v9.9.9" }])
        (.success "x,") "v9.9.9" =
      .ok ((([{ commit := "aaaa", refs := "tag: refs/tags/v9.9.9" }] :
          List gitCommitMock).filter fun c => goContains c.refs "v9.9.9").map
        getNewMockReference) ∧
    ((∀ c ∈ ([{ commit := "aaaa", refs := "tag: refs/tags/v9.9.9" }] :
        List gitCommitMock), goContains c.refs "v9.9.9" = false) →
      mockListMatchingRefs
        (fun _ => some [{ commit := "aaaa", refs := "tag: refs/tags/v9.9.9" }])
        (.success "x,") "v9.9.9" = .ok [])) :=
  ⟨rfl, c4_list_matching_refs_filter
    (fun _ => some [{ commit := "aaaa", refs := "tag: refs/tags/v9.9.9" }])
    (.success "x,") "v9.9.9"
    [{ commit := "aaaa", refs := "tag: refs/tags/v9.9.9" }] rfl⟩

/-- C5 (amended): converting a record whose decoration is
"tag: v0.0.1, HEAD -> master" yields a single reference whose name is the
comma-joined "v0.0.1, master" with both prefixes stripped (not two
separate matches), and stripping the already-stripped string changes
nothing. -/
theorem c5_strip_decoration (h : String) :
    getNewMockReference { commit := h, refs := "tag: v0.0.1, HEAD -> master" } =
      { ref := "v0.0.1, master", sha := h } ∧
    stripRefPrefixes "v0.0.1, master" = "v0.0.1, master" :=
  ⟨rfl, rfl⟩

/-- C5 (counterexample): the conversion produces one reference whose name
is "v0.0.1, master", which is neither of the two claimed separate match
names "v0.0.1" and "master". -/
theorem c5_counterexample :
    (getNewMockReference
        { commit := "cafe", refs := "tag: v0.0.1, HEAD -> master" }).ref =
      "v0.0.1, master" ∧
    ("v0.0.1, master" : String) ≠ "v0.0.1" ∧
    ("v0.0.1, master" : String) ≠ "master" := by
  refine ⟨rfl, ?_, ?_⟩ <;> decide

/-- C6: the tagCommitMap key set is exactly the seven names in insertion
order, and (modelling the randstr.Hex(40) draw as a fresh 40-hex string r
distinct from every commit hash) the invalid entry maps
dummy_false_commit to a syntactically valid 40-hex value that is not the
hash of any commit of the fixture. -/
theorem c6_map_keys_and_invalid_entry (h1 h2 h3 h4 h5 h6 h7 r : String)
    (hhex : isHex40 r = true)
    (hnew : r ∉ fixtureCommitHashes h1 h2 h3 h4 h5 h6 h7) :
    (tagCommitMap h2 h3 h4 h5 h6 h7 r).map Prod.fst =
      ["v0.0.1", "v0.0.2", "dummy_tag_latest_master", "v1.0.0", "v1.0.1",
        "dummy_tag_latest_branch", "dummy_false_commit"] ∧
    (tagCommitMap h2 h3 h4 h5 h6 h7 r).lookup "dummy_false_commit" = some r ∧
    isHex40 r = true ∧
    r ∉ fixtureCommitHashes h1 h2 h3 h4 h5 h6 h7 :=
  ⟨rfl, rfl, hhex, hnew⟩

/-- C6 witness: concrete instance with distinct repeated-digit hashes and
a concrete 40-hex invalid entry. -/
theorem c6_witness :
    (isHex40 "0123456789abcdef0123456789abcdef01234567" = true ∧
      "0123456789abcdef0123456789abcdef01234567" ∉
        fixtureCommitHashes (cHash '1') (cHash '2') (cHash '3') (cHash '4')
          (cHash '5') (cHash '6') (cHash '7')) ∧
    ((tagCommitMap (cHash '2') (cHash '3') (cHash '4') (cHash '5') (cHash '6')
        (cHash '7') "0123456789abcdef0123456789abcdef01234567").map Prod.fst =
      ["v0.0.1", "v0.0.2", "dummy_tag_latest_master", "v1.0.0", "v1.0.1",
        "dummy_tag_latest_branch", "dummy_false_commit"] ∧
    (tagCommitMap (cHash '2') (cHash '3') (cHash '4') (cHash '5') (cHash '6')
        (cHash '7') "0123456789abcdef0123456789abcdef01234567").lookup
      "dummy_false_commit" = some "0123456789abcdef0123456789abcdef01234567" ∧
    isHex40 "0123456789abcdef0123456789abcdef01234567" = true ∧
    "0123456789abcdef0123456789abcdef01234567" ∉
      fixtureCommitHashes (cHash '1') (cHash '2') (cHash '3') (cHash '4')
        (cHash '5') (cHash '6') (cHash '7')) :=
  ⟨⟨by decide, by decide⟩,
    c6_map_keys_and_invalid_entry (cHash '1') (cHash '2') (cHash '3') (cHash '4')
      (cHash '5') (cHash '6') (cHash '7')
      "0123456789abcdef0123456789abcdef01234567" (by decide) (by decide)⟩

/-- C7: when the log scoped to master parses to the master fixture log,
ListCommits returns exactly the four master commits newest first; when
the log scoped to release-v1.0.0 parses to the side-branch fixture log,
ListCommits returns the three side-branch commits followed by the four
shared ancestors, 4 + 3 = 7 entries in all. -/
theorem c7_branch_scoped_commit_counts (h1 h2 h3 h4 h5 h6 h7 : String)
    (um1 um2 : String → Option (List gitCommitMock)) (res1 res2 : CmdOutcome)
    (hm : gitLogJson um1 res1 = .ok (fixtureLogMaster h1 h2 h3 h4))
    (hb : gitLogJson um2 res2 = .ok (fixtureLogBranch h1 h2 h3 h4 h5 h6 h7)) :
    mockListCommits um1 res1 =
      .ok [{ sha := h4 }, { sha := h3 }, { sha := h2 }, { sha := h1 }] ∧
    ([{ sha := h4 }, { sha := h3 }, { sha := h2 }, { sha := h1 }] :
      List GithubRepositoryCommit).length = 4 ∧
    mockListCommits um2 res2 =
      .ok [{ sha := h7 }, { sha := h6 }, { sha := h5 }, { sha := h4 },
        { sha := h3 }, { sha := h2 }, { sha := h1 }] ∧
    ([{ sha := h7 }, { sha := h6 }, { sha := h5 }, { sha := h4 },
      { sha := h3 }, { sha := h2 }, { sha := h1 }] :
      List GithubRepositoryCommit).length = 4 + 3 := by
  refine ⟨?_, rfl, ?_, rfl⟩
  · unfold mockListCommits
    rw [hm]
    rfl
  · unfold mockListCommits
    rw [hb]
    rfl

/-- C7 witness: concrete instance with decoder and process output chosen
to parse to the two fixture logs. -/
theorem c7_witness :
    (gitLogJson (fun _ => some (fixtureLogMaster (cHash '1') (cHash '2')
        (cHash '3') (cHash '4'))) (.success "x,") =
      .ok (fixtureLogMaster (cHash '1') (cHash '2') (cHash '3') (cHash '4')) ∧
    gitLogJson (fun _ => some (fixtureLogBranch (cHash '1') (cHash '2')
        (cHash '3') (cHash '4') (cHash '5') (cHash '6') (cHash '7')))
        (.success "x,") =
      .ok (fixtureLogBranch (cHash '1') (cHash '2') (cHash '3') (cHash '4')
        (cHash '5') (cHash '6') (cHash '7'))) ∧
    (mockListCommits (fun _ => some (fixtureLogMaster (cHash '1') (cHash '2')
        (cHash '3') (cHash '4'))) (.success "x,") =
      .ok [{ sha := cHash '4' }, { sha := cHash '3' }, { sha := cHash '2' },
        { sha := cHash '1' }] ∧
    ([{ sha := cHash '4' }, { sha := cHash '3' }, { sha := cHash '2' },
      { sha := cHash '1' }] : List GithubRepositoryCommit).length = 4 ∧
    mockListCommits (fun _ => some (fixtureLogBranch (cHash '1') (cHash '2')
        (cHash '3') (cHash '4') (cHash '5') (cHash '6') (cHash '7')))
        (.success "x,") =
      .ok [{ sha := cHash '7' }, { sha := cHash '6' }, { sha := cHash '5' },
        { sha := cHash '4' }, { sha := cHash '3' }, { sha := cHash '2' },
        { sha := cHash '1' }] ∧
    ([{ sha := cHash '7' }, { sha := cHash '6' }, { sha := cHash '5' },
      { sha := cHash '4' }, { sha := cHash '3' }, { sha := cHash '2' },
      { sha := cHash '1' }] : List GithubRepositoryCommit).length = 4 + 3) :=
  ⟨⟨rfl, rfl⟩,
    c7_branch_scoped_commit_counts (cHash '1') (cHash '2') (cHash '3')
      (cHash '4') (cHash '5') (cHash '6') (cHash '7')
      (fun _ => some (fixtureLogMaster (cHash '1') (cHash '2') (cHash '3')
        (cHash '4')))
      (fun _ => some (fixtureLogBranch (cHash '1') (cHash '2') (cHash '3')
        (cHash '4') (cHash '5') (cHash '6') (cHash '7')))
      (.success "x,") (.success "x,") rfl rfl⟩

/-- C8: with a nonempty branch or SHA the log arguments scope the query
to its first-parent ancestry (the ref is appended and --all is not
passed); with the empty string the query covers all branches via --all;
and every returned entry is a commit summary carrying just the commit
hash, in the order of the underlying log. -/
theorem c8_log_scoping (repo b : String) (hb : b ≠ "") :
    gitLogArgs repo b = ["-C", repo, "log", "--date=iso-strict",
      "--first-parent", "--decorate=full", GITFORMAT, b] ∧
    gitLogArgs repo "" = ["-C", repo, "log", "--date=iso-strict",
      "--first-parent", "--decorate=full", GITFORMAT, "--all"] ∧
    ∀ l : List gitCommitMock,
      convertLogToRepositoryCommitList l = l.map fun c => { sha := c.commit } := by
  refine ⟨?_, rfl, convertCommits_eq_map⟩
  unfold gitLogArgs
  rw [if_pos hb]
  rfl

/-- C8 witness: concrete instance on the branch name master. -/
theorem c8_witness :
    ("master" : String) ≠ "" ∧
    (gitLogArgs "/repo" "master" = ["-C", "/repo", "log", "--date=iso-strict",
      "--first-parent", "--decorate=full", GITFORMAT, "master"] ∧
    gitLogArgs "/repo" "" = ["-C", "/repo", "log", "--date=iso-strict",
      "--first-parent", "--decorate=full", GITFORMAT, "--all"] ∧
    ∀ l : List gitCommitMock,
      convertLogToRepositoryCommitList l = l.map fun c => { sha := c.commit }) :=
  ⟨by decide, c8_log_scoping "/repo" "master" (by decide)⟩

/-- C9: the shared command runner removes the last character of every
successful output; on a successful empty output the slice
logOut[:len(logOut)-1] is out of bounds, so the totalized runner aborts
(for both the log and describe invocations) instead of returning a
value. -/
theorem c9_empty_output_aborts (um : String → Option (List gitCommitMock))
    (out : String) (h : out.isEmpty = false) :
    gitCommand (.success out) = .ok (out.dropRight 1) ∧
    gitCommand (.success "") = .error .panicEmptyOutput ∧
    describeHash (.success "") =
      .error (.wrap "failed to run git describe" .panicEmptyOutput) ∧
    gitLogJson um (.success "") =
      .error (.wrap "failed to run git log" .panicEmptyOutput) := by
  refine ⟨?_, rfl, rfl, rfl⟩
  simp [gitCommand, h]

/-- C9 witness: concrete instance on a nonempty output. -/
theorem c9_witness :
    ("ab," : String).isEmpty = false ∧
    (gitCommand (.success "ab,") = .ok (("ab," : String).dropRight 1) ∧
    gitCommand (.success "") = .error .panicEmptyOutput ∧
    describeHash (.success "") =
      .error (.wrap "failed to run git describe" .panicEmptyOutput) ∧
    gitLogJson (fun _ => none) (.success "") =
      .error (.wrap "failed to run git log" .panicEmptyOutput)) :=
  ⟨by decide, c9_empty_output_aborts (fun _ => none) "ab," (by decide)⟩

/-- C10: GetRef with the empty refName never reports not-found on a
nonempty parsed log: every decoration contains the empty substring, so
the first (most recent) record is returned, even when its decoration is
empty. -/
theorem c10_empty_refname_returns_head (c : gitCommitMock)
    (rest : List gitCommitMock) :
    getRefFromCommitObjList (c :: rest) "" = .ok (getNewMockReference c) := by
  simp [getRefFromCommitObjList, goContains_empty]

end GitFakes
